import Mathlib

/-!
Verification development for the spool-file decoder and tick-index builder
of `dmcutils` (file `dmcutils/neospool.py`).

The embedding models a spool file as random-access bytes (`ByteFile`),
multi-byte reads as little-endian word assembly (numpy reads native
little-endian on the supported platforms), and each fallible Python code
path as an `Except String` value whose `.error` messages name the Python
exception raised at the corresponding source line.
-/

/-- A container (spool) file: its byte length and its byte at each offset.
Offsets at or beyond `size` are never read by the model (reads are clipped
to the available bytes first, as `np.fromfile` does). -/
structure ByteFile where
  size : Nat
  byte : Nat → Nat

/-- Little-endian word of `n` bytes starting at offset `off`
(`np.fromfile` with `uint16`/`uint32`/`uint64` on a little-endian host). -/
def readWord (f : ByteFile) (off n : Nat) : Nat :=
  (List.range n).foldr (fun j acc => f.byte (off + j) + 256 * acc) 0

/-- The camera-parameter dict `P` as consumed by `readNeoSpool`
(`neospool.py` lines 162-230): all fields must be present as integers
there, otherwise the Python code fails with a `TypeError` before reading.
Field names follow the source dict keys. -/
structure GeometryParams where
  superx : Nat
  supery : Nat
  nframefile : Nat
  stride : Nat
  framebytes : Nat
  bpp : Nat
deriving DecidableEq

/-- `(nx+zerocols)*ny`, source line 176. -/
def npixframe (P : GeometryParams) (zerocols : Nat) : Nat :=
  (P.superx + zerocols) * P.supery

/-- `dtype(0).itemsize`: 2 bytes for `uint16` (bpp 16), 4 for `uint32` (bpp 32). -/
def dsize (P : GeometryParams) : Nat :=
  P.bpp / 8

/-- `bytesperframe = npixframe*dtype(0).itemsize + P['stride']//8*8`, source line 205. -/
def bytesperframe (P : GeometryParams) (zerocols : Nat) : Nat :=
  npixframe P zerocols * dsize P + P.stride / 8 * 8

/-- Trailer read, source lines 188 and 220:
`np.fromfile(f, dtype=np.uint64, count=P['stride']//8)[-2]` at file
position `pos`.  `np.fromfile` clips `count` to the complete 8-byte words
remaining in the file; indexing `[-2]` is an `IndexError` when fewer than
two words were read, and otherwise yields the second-from-last word read. -/
def trailerTick (f : ByteFile) (pos count : Nat) : Except String Nat :=
  let n := min count ((f.size - pos) / 8)
  if n < 2 then .error "IndexError tick"
  else .ok (readWord f (pos + 8 * (n - 2)) 8)

/-- Pixel grid of one frame, source lines 212-217: `np.fromfile` of
`npixframe` samples reshaped to `(ny, nx+zerocols)` row-major, then the
column slice `img[:, xslice]` keeps the first `nx` columns (for bpp 16 with
`zerocols>0` the slice is `slice(None,-zerocols)`; with `zerocols=0` it is
`slice(None)`; either way columns `0..nx-1` survive). -/
def readImg (f : ByteFile) (pos : Nat) (P : GeometryParams) (zerocols : Nat) : List (List Nat) :=
  (List.range P.supery).map fun r =>
    (List.range P.superx).map fun c =>
      readWord f (pos + (r * (P.superx + zerocols) + c) * dsize P) (dsize P)

/-- Result of one `readNeoSpool` call: the tick-only fast path returns a
bare tick; the full path returns the image stack and the tick array
(`tsec` is always `None` here because `spoolparam` never puts a
`'kinetic'` key into `P`, source lines 199-203). -/
inductive SpoolResult where
  | tick (t : Nat)
  | frames (imgs : List (List (List Nat))) (ticks : List Nat)
deriving DecidableEq

/-- Body of the read loop for one selected frame index `i`, source lines
209-225: seek to `i*bytesperframe`; read `npixframe` pixel samples
(`np.fromfile` clips to the samples remaining, and `reshape` then fails
unless exactly `npixframe` were read); the assignment
`imgs[j,...] = img[:,xslice]` broadcasts `nx+zerocols` columns into an
`nx`-wide slot when `bpp==32` and `zerocols>0` (a `ValueError`, since the
32-bit branch sets `xslice=slice(None)`, line 172); then read the trailer
and take its second-from-last word as the tick. -/
def decodeFrame (f : ByteFile) (P : GeometryParams) (zerocols i : Nat) :
    Except String (List (List Nat) × Nat) :=
  let pos := i * bytesperframe P zerocols
  if (f.size - pos) / dsize P < npixframe P zerocols then
    .error "ValueError reshape"
  else if P.bpp = 32 ∧ zerocols ≠ 0 then
    .error "ValueError broadcast"
  else
    (trailerTick f (pos + npixframe P zerocols * dsize P) (P.stride / 8)).map
      (fun t => (readImg f pos P zerocols, t))

/-- The read loop, source lines 207-228 (the frames are processed in the
order of `ifrm`; a Python exception on any selected frame propagates out of
the whole call).  The historical all-zero-frame early `break` is commented
out in the source (lines 214-215), so every selected frame is decoded and
the final `imgs[:j]` / `ticks[:j]` slices (lines 227-228) keep everything,
`j` having reached `len(ifrm)`. -/
def decodeFrames (f : ByteFile) (P : GeometryParams) (zerocols : Nat) :
    List Nat → Except String (List (List (List Nat)) × List Nat)
  | [] => .ok ([], [])
  | i :: rest =>
    match decodeFrame f P zerocols i with
    | .error e => .error e
    | .ok (img, t) =>
      match decodeFrames f P zerocols rest with
      | .error e => .error e
      | .ok (imgs, ticks) => .ok (img :: imgs, t :: ticks)

/-- `readNeoSpool(fn, P, ifrm, tickonly, zerocols)`, source lines 142-230.
`ifrm = none` models Python `ifrm=None` (all frames, `range(nframefile)`),
`some l` models an explicit int (singleton list) or list of frame indices.
Checks appear in source order:
bit-depth dispatch (`NotImplementedError`, lines 164-174), the declared
`framebytes` validation (`IOError`, lines 178-179), the frames-per-file
validation `P['nframefile'] != filebytes // P['framebytes']` (`IOError`,
lines 181-183; a zero `framebytes` is a Python `ZeroDivisionError` there),
the tick-only fast path (lines 185-189, a single seek past the pixel
region and one trailer read -- note it never looks at `ifrm`), and the full
read loop (lines 191-230, guarded by the line 206 `assert`). -/
def readNeoSpool (f : ByteFile) (P : GeometryParams) (ifrm : Option (List Nat))
    (tickonly : Bool) (zerocols : Nat) : Except String SpoolResult :=
  if P.bpp ≠ 16 ∧ P.bpp ≠ 32 then
    .error "NotImplementedError unknown spool format"
  else if P.framebytes ≠ npixframe P zerocols * P.bpp / 8 + P.stride then
    .error "IOError wrong framebytes"
  else if P.framebytes = 0 then
    .error "ZeroDivisionError"
  else if P.nframefile ≠ f.size / P.framebytes then
    .error "IOError wrong number of frames/file"
  else if tickonly then
    (trailerTick f (npixframe P zerocols * dsize P) (P.stride / 8)).map .tick
  else if bytesperframe P zerocols ≠ P.framebytes then
    .error "AssertionError bytesperframe"
  else
    match decodeFrames f P zerocols
        (match ifrm with | none => List.range P.nframefile | some l => l) with
    | .error e => .error e
    | .ok (imgs, ticks) => .ok (.frames imgs ticks)

/-- Projection: the tick array of a successful full decode. -/
def ticksOf : Except String SpoolResult → Option (List Nat)
  | .ok (.frames _ ticks) => some ticks
  | _ => none

/-- Projection: the tick of a successful tick-only decode. -/
def tickOf : Except String SpoolResult → Option Nat
  | .ok (.tick t) => some t
  | _ => none

/-- A `pathlib.Path` as the tick-index code uses it: a parent directory
string and a file name (`f.parent`, `f.name`, and joining `parent / name`). -/
structure DatPath where
  parent : String
  name : String
deriving DecidableEq

/-- One input container file for `tickfile`: its path and its bytes. -/
structure SpoolFile where
  path : DatPath
  data : ByteFile

/-- Numpy cast of a `uint64` tick into the `np.int64` array
`ticks = np.empty(len(flist), dtype=np.int64)` (source line 253):
values at or above `2^63` wrap around (C-style two's-complement cast). -/
def toInt64 (t : Nat) : Int :=
  if t < 2 ^ 63 then (t : Int) else (t : Int) - 2 ^ 64

/-- The tick-scan loop of `tickfile`, source lines 253-257:
`ticks[i] = readNeoSpool(f, P, 0, True, zerocol)` for each file in order;
a decode exception propagates and aborts the whole build.  The tick-only
path always returns a bare tick, so the `frames` arm is unreachable. -/
def tickfileTicks (P : GeometryParams) (zerocol : Nat) :
    List SpoolFile → Except String (List Int)
  | [] => .ok []
  | f :: rest =>
    match readNeoSpool f.data P (some [0]) true zerocol with
    | .error e => .error e
    | .ok (.frames _ _) => .error "unreachable"
    | .ok (.tick t) =>
      match tickfileTicks P zerocol rest with
      | .error e => .error e
      | .ok ts => .ok (toInt64 t :: ts)

/-- The persisted HDF5 index artifact, source lines 267-270: datasets
`index` (the sorted int64 ticks), `fn` (the file names in that order) and
`path` (the string `str(flist[0].parent)`). -/
structure TickArtifact where
  index : List Int
  fn : List String
  path : String
deriving DecidableEq

/-- The state of the output target path `outfn` as `tickfile` probes it
(source lines 241-248), after `expanduser`: whether it is a directory,
whether it is a file, its size, whether its suffix is `.h5`, and -- for the
`with_suffix('.h5')` rename applied when an existing file lacks the `.h5`
suffix -- the state of the sibling path with suffix `.h5`. -/
structure OutTarget where
  is_dir : Bool
  is_file : Bool
  size : Nat
  suffix_is_h5 : Bool
  h5_is_file : Bool
  h5_size : Nat

/-- Outcome of one `tickfile` call: a Python exception, or a successfully
written artifact.  Only the `written` outcome touches the filesystem (the
decisive existing-output check, source line 247, precedes both the tick
scan and the HDF5 write). -/
inductive TickfileOutcome where
  | error (e : String)
  | written (a : TickArtifact)
deriving DecidableEq

/-- Whether the line 247 check `outfn.is_file() and outfn.stat().st_size > 0`
fires, taking into account that line 244-245 first renames an existing
non-`.h5` target to its `.h5` sibling. -/
def tickfileConflict (outfn : OutTarget) : Bool :=
  if outfn.is_file && !outfn.suffix_is_h5 then
    outfn.h5_is_file && decide (0 < outfn.h5_size)
  else
    outfn.is_file && decide (0 < outfn.size)

/-- Contract of `F.sort_index(inplace=True)` (source line 260) on the
series `Series(index=ticks, data=names)`: pandas sorts the entries
ascending by index value with `kind='quicksort'` (the default), which
guarantees an ascending permutation of the entries but -- unlike
`kind='mergesort'`/`'stable'` -- does not guarantee a stable order among
equal keys.  The relation therefore admits every ascending reordering. -/
def SortIndexResult (input output : List (Int × String)) : Prop :=
  output.Perm input ∧ (output.map Prod.fst).Sorted (· ≤ ·)

/-- `tickfile(flist, P, outfn, zerocol)`, source lines 233-272, as a
relation between its inputs and its outcome (relational because of the
unstable sort).  In source order: the `assert not outfn.is_dir()` (line
242), the `.h5` suffix normalisation and the existing-output check (lines
244-248, an `IOError` that aborts before any file is scanned or written),
the tick scan (lines 253-257), the sort (lines 259-260), and the write of
`index`/`fn`/`path` where `path = str(flist[0].parent)` (lines 267-270; an
empty `flist` makes `flist[0]` an `IndexError`). -/
def tickfileRel (flist : List SpoolFile) (P : GeometryParams) (outfn : OutTarget)
    (zerocol : Nat) (out : TickfileOutcome) : Prop :=
  if outfn.is_dir = true then
    out = .error "AssertionError outfn is a directory"
  else if tickfileConflict outfn = true then
    out = .error "IOError output tick file already exists"
  else
    match tickfileTicks P zerocol flist with
    | .error e => out = .error e
    | .ok ticks =>
      match flist with
      | [] => out = .error "IndexError flist"
      | f0 :: _ =>
        ∃ sorted, SortIndexResult (ticks.zip (flist.map (fun f => f.path.name))) sorted ∧
          out = .written ⟨sorted.map Prod.fst, sorted.map Prod.snd, f0.path.parent⟩

/-- `spoolpath` applied to a written `.h5` tick file, source lines 85-90:
read datasets `fn` and `path` and return `[P/f for f in F]`, i.e. join
every stored name against the single stored parent directory. -/
def spoolpathH5 (a : TickArtifact) : List DatPath :=
  a.fn.map (fun n => ⟨a.path, n⟩)

/-- The `acquisitionmetadata.ini` key/value source as `spoolparam` probes
it (source lines 106-130): `getint`/`get` on a missing key raises, and the
format generation is chosen by testing `'ImageSizeBytes' in C['data']` and
then `'ImageSize' in C['data']`.  Field names are the ini keys. -/
structure MetaSource where
  ImagesPerFile : Option Nat
  ImageSizeBytes : Option Nat
  AOIWidth : Option Nat
  AOIHeight : Option Nat
  AOIStride : Option Nat
  PixelEncoding : Option String
  ImageSize : Option Nat

/-- The dict `P` returned by `spoolparam` (source lines 133-138).  In the
legacy branch `superx`/`supery`/`stride` keep the caller-supplied arguments,
which default to `None` in the source -- hence the `Option` fields. -/
structure PDict where
  superx : Option Nat
  supery : Option Nat
  nframefile : Nat
  stride : Option Nat
  framebytes : Nat
  bpp : Nat
deriving DecidableEq

/-- Decimal digit value of a character, `none` when it is not `0`-`9`. -/
def digitVal? (c : Char) : Option Nat :=
  if '0' ≤ c ∧ c ≤ '9' then some (c.toNat - 48) else none

/-- Accumulating decimal parse of a character list; `none` on any non-digit. -/
def decNatAux : List Char → Nat → Option Nat
  | [], acc => some acc
  | c :: cs, acc =>
    match digitVal? c with
    | none => none
    | some d => decNatAux cs (10 * acc + d)

/-- `int(s)` for a plain nonnegative decimal numeral: `none` when `s` is
empty or holds a non-digit (Python raises `ValueError` there).  Python
`int` additionally strips whitespace and accepts a sign, which no
Andor `PixelEncoding` label exercises. -/
def pyInt? (s : String) : Option Nat :=
  if s.data.isEmpty then none else decNatAux s.data 0

/-- `spoolparam(inifn, superx, supery, stride)`, source lines 100-140
(the `inifn` existence check and ini parsing are filesystem effects outside
the model; `C` is the parsed key/value content).  New-generation branch
(lines 111-122): read the five `data` keys; an encoding outside
`('Mono32','Mono16')` is only `logging.critical`-logged, never an error,
and `bpp = int(encoding[-2:])` parses the last two characters of the label
(a Python `ValueError` when they are not a number, modelled by `pyInt?`;
`String.takeRight 2` is exactly `[-2:]`, the whole string when shorter).
Legacy
branch (lines 123-130): the sanity check `superx*supery*2` against
`framebytes` is a `TypeError` when the caller left `superx`/`supery` as
`None`, and otherwise only logs; `bpp` is fixed at 16.  With neither key
the dict construction at line 133 hits unbound locals. -/
def spoolparam (C : MetaSource) (superx supery stride : Option Nat) :
    Except String PDict :=
  match C.ImagesPerFile with
  | none => .error "NoOptionError ImagesPerFile"
  | some Nframe =>
    match C.ImageSizeBytes with
    | some framebytes =>
      match C.AOIWidth, C.AOIHeight, C.AOIStride, C.PixelEncoding with
      | some sx, some sy, some st, some encoding =>
        match pyInt? (encoding.takeRight 2) with
        | none => .error "ValueError invalid literal for int"
        | some bpp => .ok ⟨some sx, some sy, Nframe, some st, framebytes, bpp⟩
      | _, _, _, _ => .error "NoOptionError data"
    | none =>
      match C.ImageSize with
      | some framebytes =>
        match superx, supery with
        | some sx, some sy => .ok ⟨some sx, some sy, Nframe, stride, framebytes, 16⟩
        | _, _ => .error "TypeError NoneType"
      | none => .error "UnboundLocalError framebytes"

/-! Concrete inputs used by counterexamples and witnesses.  The tiny
geometry `P1` (1x1 pixels, 16-byte trailer of two 64-bit words, so 18
bytes per frame) passes every structural validation of `readNeoSpool`,
and the second-from-last trailer word of frame 0 occupies bytes 2-9. -/

/-- One-frame 18-byte spool file whose frame-0 tick is 1. -/
def F1 : ByteFile := ⟨18, fun off => if off = 2 then 1 else 0⟩

/-- One-frame 18-byte spool file whose frame-0 tick is 2. -/
def F1b : ByteFile := ⟨18, fun off => if off = 2 then 2 else 0⟩

/-- One-frame 18-byte spool file whose frame-0 tick is 5. -/
def F5 : ByteFile := ⟨18, fun off => if off = 2 then 5 else 0⟩

/-- Two-frame 36-byte spool file with frame ticks 1 (bytes 2-9) and
2 (bytes 20-27); all pixel samples are zero. -/
def F2 : ByteFile := ⟨36, fun off => if off = 2 then 1 else if off = 20 then 2 else 0⟩

/-- A 10-byte (truncated) file: shorter than one `P1` frame. -/
def Fshort : ByteFile := ⟨10, fun _ => 0⟩

/-- A 40-byte file: more than two `P1` frames despite `nframefile = 1`. -/
def Flong : ByteFile := ⟨40, fun _ => 0⟩

/-- Geometry of `F1`/`F1b`/`F5`/`Fshort`/`Flong`: 1x1 pixels at 16 bpp,
stride 16, 18 bytes per frame, one frame per file. -/
def P1 : GeometryParams := ⟨1, 1, 1, 16, 18, 16⟩

/-- Geometry of `F2`: as `P1` but two frames per file. -/
def P2 : GeometryParams := ⟨1, 1, 2, 16, 18, 16⟩

/-- A geometry whose declared `framebytes` (100) disagrees with the
recomputed value `1*1*16/8 + 16 = 18`. -/
def Pbad : GeometryParams := ⟨1, 1, 1, 16, 100, 16⟩

/-- The spec's concrete scenario file: exactly `640*540*2 + 1296 = 692496`
bytes, all trailer words zero except the second-from-last 64-bit word of
the trailer (bytes 692480-692487), which holds `12345 = 0x3039`
little-endian. -/
def c8file : ByteFile :=
  ⟨692496, fun off => if off = 692480 then 57 else if off = 692481 then 48 else 0⟩

/-- The spec's concrete scenario geometry:
width 640, height 540, 16 bpp, no zero columns, trailer stride 1296,
`frame_total_bytes = 640*540*2 + 1296`, one frame per file. -/
def P8 : GeometryParams := ⟨640, 540, 1, 1296, 692496, 16⟩

/-- Input file `d1/a.dat` with tick 1. -/
def fa : SpoolFile := ⟨⟨"d1", "a.dat"⟩, F1⟩

/-- Input file `d1/b.dat` with tick 2 (same parent directory as `fa`). -/
def fbS : SpoolFile := ⟨⟨"d1", "b.dat"⟩, F1b⟩

/-- Input file `d2/b.dat` with tick 2 (parent directory differs from `fa`). -/
def fb2 : SpoolFile := ⟨⟨"d2", "b.dat"⟩, F1b⟩

/-- Input file `d1/a.dat` with tick 5. -/
def ta : SpoolFile := ⟨⟨"d1", "a.dat"⟩, F5⟩

/-- Input file `d1/b.dat` with tick 5 (tied with `ta`). -/
def tb : SpoolFile := ⟨⟨"d1", "b.dat"⟩, F5⟩

/-- A fresh output target: not a directory, does not exist yet, `.h5` suffix. -/
def outfn0 : OutTarget := ⟨false, false, 0, true, false, 0⟩

/-- An output target that is an existing non-empty `.h5` file (5 bytes). -/
def outfnBusy : OutTarget := ⟨false, true, 5, true, false, 0⟩

/-- New-generation metadata with the unrecognized encoding label `Mono12`. -/
def mono12src : MetaSource :=
  ⟨some 1, some 100, some 640, some 540, some 1296, some "Mono12", none⟩

/-- New-generation metadata with the unrecognized encoding label `Mono64`. -/
def mono64src : MetaSource :=
  ⟨some 2, some 9, some 3, some 4, some 16, some "Mono64", none⟩

/-! Helper lemmas. -/

/-- A successful run of the read loop yields one image and one tick per
selected frame index. -/
theorem decodeFrames_length (f : ByteFile) (P : GeometryParams) (zerocols : Nat) :
    ∀ (l : List Nat) (imgs : List (List (List Nat))) (ticks : List Nat),
      decodeFrames f P zerocols l = .ok (imgs, ticks) →
      imgs.length = l.length ∧ ticks.length = l.length := by
  intro l
  induction l with
  | nil =>
    intro imgs ticks h
    unfold decodeFrames at h
    simp only [Except.ok.injEq, Prod.mk.injEq] at h
    obtain ⟨h1, h2⟩ := h
    subst h1; subst h2
    simp
  | cons i rest ih =>
    intro imgs ticks h
    unfold decodeFrames at h
    cases hdf : decodeFrame f P zerocols i with
    | error e => rw [hdf] at h; exact absurd h (by simp)
    | ok p =>
      rw [hdf] at h
      cases hrest : decodeFrames f P zerocols rest with
      | error e => rw [hrest] at h; exact absurd h (by simp)
      | ok q =>
        rw [hrest] at h
        obtain ⟨img, t⟩ := p
        obtain ⟨imgs0, ticks0⟩ := q
        simp only [Except.ok.injEq, Prod.mk.injEq] at h
        obtain ⟨h1, h2⟩ := h
        obtain ⟨l1, l2⟩ := ih imgs0 ticks0 hrest
        subst h1; subst h2
        simp [l1, l2]

/-- A successful tick scan yields one tick per input file. -/
theorem tickfileTicks_length (P : GeometryParams) (zerocol : Nat) :
    ∀ (flist : List SpoolFile) (ticks : List Int),
      tickfileTicks P zerocol flist = .ok ticks → ticks.length = flist.length := by
  intro flist
  induction flist with
  | nil =>
    intro ticks h
    unfold tickfileTicks at h
    injection h with h
    simp [← h]
  | cons f rest ih =>
    intro ticks h
    unfold tickfileTicks at h
    cases hr : readNeoSpool f.data P (some [0]) true zerocol with
    | error e => rw [hr] at h; exact absurd h (by simp)
    | ok r =>
      rw [hr] at h
      cases r with
      | frames imgs tks => exact absurd h (by simp)
      | tick t =>
        cases hrest : tickfileTicks P zerocol rest with
        | error e => rw [hrest] at h; exact absurd h (by simp)
        | ok ts =>
          rw [hrest] at h
          injection h with h
          subst h
          simp [ih ts hrest]

/-- Zipping the key column of a pair list against its mapped value column
recovers the mapped pair list. -/
theorem zip_map_fst_snd_map {α β γ : Type} (g : β → γ) :
    ∀ l : List (α × β),
      (l.map Prod.fst).zip ((l.map Prod.snd).map g) = l.map (fun p => (p.1, g p.2))
  | [] => rfl
  | p :: l => by
    simp only [List.map_cons, List.zip_cons_cons, zip_map_fst_snd_map g l]

/-! Claim theorems. -/

/-- Claim C3 counterexample: at the concrete geometry `Pbad`, whose
declared `framebytes` (100) differs from the recomputed
`(width+zerocols)*height*(bpp/8)+stride = 18`, `readNeoSpool` aborts with
an `IOError` in both full and tick-only modes instead of warning and
proceeding. -/
theorem readNeoSpool_framebytes_cex :
    readNeoSpool F1 Pbad none false 0 = .error "IOError wrong framebytes" ∧
    readNeoSpool F1 Pbad none true 0 = .error "IOError wrong framebytes" :=
  ⟨rfl, rfl⟩

/-- Claim C3 (corrected): whenever the declared `frame_total_bytes`
differs from the value recomputed as
`(width+zero_pad_columns)*height*(bits_per_pixel/8)+trailer_stride_bytes`,
`readNeoSpool` raises an `IOError` exception (source lines 178-179) and
performs no decoding at all -- it does not warn-and-proceed. -/
theorem readNeoSpool_framebytes_mismatch_raises (f : ByteFile) (P : GeometryParams)
    (ifrm : Option (List Nat)) (mode : Bool) (zerocols : Nat)
    (hbpp : P.bpp = 16 ∨ P.bpp = 32)
    (hfb : P.framebytes ≠ npixframe P zerocols * P.bpp / 8 + P.stride) :
    readNeoSpool f P ifrm mode zerocols = .error "IOError wrong framebytes" := by
  unfold readNeoSpool
  rw [if_neg (by rintro ⟨h16, h32⟩; rcases hbpp with h | h; exacts [h16 h, h32 h]),
    if_pos hfb]

/-- Claim C3 witness: the corrected statement applied at `Pbad` on a
truncated file in tick-only mode. -/
theorem readNeoSpool_framebytes_mismatch_raises_witness :
    readNeoSpool Fshort Pbad (some [0]) true 0 = .error "IOError wrong framebytes" :=
  readNeoSpool_framebytes_mismatch_raises Fshort Pbad (some [0]) true 0
    (Or.inl rfl) (by decide)

/-- Claim C4 counterexample: the 10-byte file `Fshort` is not an exact
multiple of `P1.framebytes = 18` (it holds zero complete frames while
`nframefile = 1`), and decoding it in all-frames mode aborts with an
`IOError` instead of returning the complete frames that fit with a
warning. -/
theorem readNeoSpool_filesize_cex :
    readNeoSpool Fshort P1 none false 0 = .error "IOError wrong number of frames/file" :=
  rfl

/-- Claim C4 (corrected): whenever `frames_per_file` differs from
`floor(file_size / frame_total_bytes)`, `readNeoSpool` raises an `IOError`
exception (source lines 181-183) and returns no frames at all: short
files are not tolerated by truncating to the complete frames that fit.
(The source check uses floor division, so a size that is not an exact
multiple but whose floor still equals `frames_per_file` passes silently.) -/
theorem readNeoSpool_framecount_mismatch_raises (f : ByteFile) (P : GeometryParams)
    (zerocols : Nat)
    (hbpp : P.bpp = 16 ∨ P.bpp = 32)
    (hfb : P.framebytes = npixframe P zerocols * P.bpp / 8 + P.stride)
    (hfb0 : P.framebytes ≠ 0)
    (hnf : P.nframefile ≠ f.size / P.framebytes) :
    readNeoSpool f P none false zerocols = .error "IOError wrong number of frames/file" := by
  unfold readNeoSpool
  rw [if_neg (by rintro ⟨h16, h32⟩; rcases hbpp with h | h; exacts [h16 h, h32 h]),
    if_neg (by simp [hfb]), if_neg hfb0, if_pos hnf]

/-- Claim C4 witness: the corrected statement applied at the oversized
40-byte file `Flong` (two complete frames fit, `nframefile = 1`). -/
theorem readNeoSpool_framecount_mismatch_raises_witness :
    readNeoSpool Flong P1 none false 0 = .error "IOError wrong number of frames/file" :=
  readNeoSpool_framecount_mismatch_raises Flong P1 0 (Or.inl rfl) rfl
    (by decide) (by decide)

/-- Claim C8: the spec's concrete scenario.  With geometry width 640,
height 540, 16 bpp, no zero columns, trailer stride 1296 and
`frame_total_bytes = 640*540*2+1296`, the synthetic file of exactly that
many bytes whose trailer words are all zero except the second-from-last
64-bit word (set to 12345) decodes to tick 12345 in both tick-only and
full modes. -/
theorem readNeoSpool_concrete_12345 :
    readNeoSpool c8file P8 none true 0 = .ok (.tick 12345) ∧
    ticksOf (readNeoSpool c8file P8 none false 0) = some [12345] :=
  ⟨rfl, rfl⟩

/-- Claim C9: a successful full decode with `ifrm = None` (all frames)
returns exactly `frames_per_file` images and ticks; the all-zero-frame
early stop is commented out in the source (lines 214-215), so blank
trailing frames are never dropped. -/
theorem readNeoSpool_all_frames_count (f : ByteFile) (P : GeometryParams)
    (zerocols : Nat) (imgs : List (List (List Nat))) (ticks : List Nat)
    (h : readNeoSpool f P none false zerocols = .ok (.frames imgs ticks)) :
    imgs.length = P.nframefile ∧ ticks.length = P.nframefile := by
  unfold readNeoSpool at h
  split at h
  next => exact absurd h (by simp)
  next =>
  split at h
  next => exact absurd h (by simp)
  next =>
  split at h
  next => exact absurd h (by simp)
  next =>
  split at h
  next => exact absurd h (by simp)
  next =>
  split at h
  next hft => exact absurd hft (by simp)
  next =>
  split at h
  next => exact absurd h (by simp)
  next =>
  split at h
  next e heq => exact absurd h (by simp)
  next imgs0 ticks0 heq =>
    simp only [Except.ok.injEq, SpoolResult.frames.injEq] at h
    obtain ⟨h1, h2⟩ := h
    subst h1; subst h2
    have := decodeFrames_length f P zerocols (List.range P.nframefile) imgs0 ticks0 heq
    simpa using this

/-- Claim C9 witness: the two-frame file `F2` -- whose pixel samples are
all zero in both frames, so an all-zero early stop would truncate it --
decodes in all-frames mode to exactly `nframefile = 2` frames and ticks. -/
theorem readNeoSpool_all_frames_count_witness :
    ([[[0]], [[0]]] : List (List (List Nat))).length = P2.nframefile ∧
    ([1, 2] : List Nat).length = P2.nframefile :=
  readNeoSpool_all_frames_count F2 P2 0 [[[0]], [[0]]] [1, 2] rfl

/-- Claim C7 counterexample: on new-generation metadata whose
`PixelEncoding` is the unrecognized label `Mono12`, `spoolparam` does not
fail: it returns a parameter dict (with `bpp = 12` parsed from the label's
last two characters), the unrecognized label having only been logged
(source lines 119-122). -/
theorem spoolparam_encoding_cex :
    spoolparam mono12src none none none =
      .ok ⟨some 640, some 540, 1, some 1296, 100, 12⟩ ∧
    mono12src.PixelEncoding ≠ some "Mono16" ∧
    mono12src.PixelEncoding ≠ some "Mono32" :=
  ⟨rfl, by decide, by decide⟩

/-- Claim C7 (corrected): for new-generation metadata (all five `data`
keys present), an encoding label outside `Mono16`/`Mono32` does not make
`spoolparam` fail: the condition at source line 119 only logs, and
`spoolparam` returns the parameter dict with `bpp` parsed from the last
two characters of the label whenever they form a number (a label whose
last two characters are not a number still dies with a `ValueError` from
`int`). -/
theorem spoolparam_unrecognized_encoding_ok
    (nf fb w h st : Nat) (enc : String) (iz p1 p2 p3 : Option Nat) (b : Nat)
    (hb : pyInt? (enc.takeRight 2) = some b) :
    spoolparam ⟨some nf, some fb, some w, some h, some st, some enc, iz⟩ p1 p2 p3 =
      .ok ⟨some w, some h, nf, some st, fb, b⟩ := by
  simp only [spoolparam, hb]

/-- Claim C7 witness: the corrected statement applied at the `Mono64`
metadata source. -/
theorem spoolparam_unrecognized_encoding_ok_witness :
    spoolparam mono64src none none none = .ok ⟨some 3, some 4, 2, some 16, 9, 64⟩ :=
  spoolparam_unrecognized_encoding_ok 2 9 3 4 16 "Mono64" none none none none 64 (by decide)

/-- Claim C2 counterexample: on the two-frame file `F2` with frame ticks
1 and 2, tick-only mode with selected frame index 1 still returns frame
0's tick (1), while the full decode of frame 1 returns tick 2 -- the
tick-only fast path ignores the frame selector (source lines 185-189
precede any use of `ifrm`). -/
theorem readNeoSpool_tickonly_ifrm_cex :
    tickOf (readNeoSpool F2 P2 (some [1]) true 0) = some 1 ∧
    ticksOf (readNeoSpool F2 P2 (some [1]) false 0) = some [2] ∧
    tickOf (readNeoSpool F2 P2 (some [1]) true 0) ≠ some 2 :=
  ⟨rfl, rfl, by decide⟩

/-- Claim C2 (corrected): the fast path agrees with the full path only at
frame index 0.  Whenever the full decode of frame 0 succeeds with tick
`t`, the tick-only mode returns exactly `t` -- for every value of the
frame selector, which the tick-only branch never reads. -/
theorem readNeoSpool_tickonly_first_frame (f : ByteFile) (P : GeometryParams)
    (zerocols : Nat) (ifrm : Option (List Nat)) (imgs : List (List (List Nat))) (t : Nat)
    (h : readNeoSpool f P (some [0]) false zerocols = .ok (.frames imgs [t])) :
    readNeoSpool f P ifrm true zerocols = .ok (.tick t) := by
  unfold readNeoSpool at h ⊢
  split at h
  next => exact absurd h (by simp)
  next hbpp =>
  rw [if_neg hbpp]
  split at h
  next => exact absurd h (by simp)
  next hfb =>
  rw [if_neg hfb]
  split at h
  next => exact absurd h (by simp)
  next hfb0 =>
  rw [if_neg hfb0]
  split at h
  next => exact absurd h (by simp)
  next hnf =>
  rw [if_neg hnf, if_pos rfl]
  split at h
  next hft => exact absurd hft (by simp)
  next =>
  split at h
  next => exact absurd h (by simp)
  next hbpf =>
  split at h
  next e heq => exact absurd h (by simp)
  next imgs0 ticks0 heq =>
  simp only [Except.ok.injEq, SpoolResult.frames.injEq] at h
  obtain ⟨h1, h2⟩ := h
  have heq2 : decodeFrames f P zerocols [0] = .ok (imgs0, ticks0) := heq
  unfold decodeFrames at heq2
  split at heq2
  next e heq3 => exact absurd heq2 (by simp)
  next img t0 heq3 =>
  split at heq2
  next e heq4 => exact absurd heq2 (by simp)
  next imgs1 ticks1 heq4 =>
  have hnil : decodeFrames f P zerocols ([] : List Nat) = .ok ([], []) := rfl
  rw [hnil] at heq4
  simp only [Except.ok.injEq, Prod.mk.injEq] at heq4
  obtain ⟨h3, h4⟩ := heq4
  subst h3; subst h4
  simp only [Except.ok.injEq, Prod.mk.injEq] at heq2
  obtain ⟨h5, h6⟩ := heq2
  rw [← h6] at h2
  injection h2 with h7
  subst h7
  simp only [decodeFrame] at heq3
  split at heq3
  next => exact absurd heq3 (by simp)
  next =>
  split at heq3
  next => exact absurd heq3 (by simp)
  next =>
  cases htt : trailerTick f (0 * bytesperframe P zerocols + npixframe P zerocols * dsize P)
      (P.stride / 8) with
  | error e =>
    rw [htt] at heq3
    exact absurd heq3 (by simp [Except.map])
  | ok tt =>
    rw [htt] at heq3
    simp only [Except.map, Except.ok.injEq, Prod.mk.injEq] at heq3
    obtain ⟨h8, h9⟩ := heq3
    rw [Nat.zero_mul, Nat.zero_add] at htt
    rw [htt]
    simp [Except.map, h9]

/-- Claim C2 witness: the corrected statement applied at the one-frame
file `F1`: the full decode of frame 0 yields tick 1 and tick-only mode
(with `ifrm = None`) returns the same tick 1. -/
theorem readNeoSpool_tickonly_first_frame_witness :
    readNeoSpool F1 P1 (some [0]) false 0 = .ok (.frames [[[0]]] [1]) ∧
    readNeoSpool F1 P1 none true 0 = .ok (.tick 1) :=
  ⟨rfl, readNeoSpool_tickonly_first_frame F1 P1 0 none [[[0]]] 1 rfl⟩

/-- Mapping a pair function that only touches the second component
through a zip is zipping against the mapped list. -/
theorem map_pair_zip {α β γ : Type} (g : β → γ) :
    ∀ (l1 : List α) (l2 : List β),
      (l1.zip l2).map (fun p => (p.1, g p.2)) = l1.zip (l2.map g)
  | [], l2 => by simp
  | a :: l1, [] => by simp
  | a :: l1, b :: l2 => by
    simp only [List.zip_cons_cons, List.map_cons, map_pair_zip g l1 l2]

/-- Claim C6: when the output target is an existing non-empty `.h5` file,
`tickfile` aborts with the line 247-248 `IOError` for every input list and
geometry -- the check runs before the tick-scan loop ever opens an input
file, and an error outcome writes nothing, so the existing artifact is
untouched. -/
theorem tickfile_conflict_aborts (flist : List SpoolFile) (P : GeometryParams)
    (outfn : OutTarget) (zerocol : Nat) (out : TickfileOutcome)
    (h1 : outfn.is_dir = false) (h2 : outfn.is_file = true)
    (h3 : outfn.suffix_is_h5 = true) (h4 : 0 < outfn.size)
    (hrel : tickfileRel flist P outfn zerocol out) :
    out = .error "IOError output tick file already exists" := by
  have hc : tickfileConflict outfn = true := by
    unfold tickfileConflict
    simp [h2, h3, h4]
  unfold tickfileRel at hrel
  rw [if_neg (by simp [h1]), if_pos hc] at hrel
  exact hrel

/-- Claim C6 witness: the theorem applied at the concrete busy target
`outfnBusy` (an existing 5-byte `.h5` file), with an empty input list --
demonstrating that the conflict fires before any scanning could matter. -/
theorem tickfile_conflict_aborts_witness :
    TickfileOutcome.error "IOError output tick file already exists" =
      .error "IOError output tick file already exists" :=
  tickfile_conflict_aborts [] P1 outfnBusy 0 _ rfl rfl rfl (by decide) rfl

/-- Claim C5 counterexample: for the two input files `ta`, `tb` (in that
order, equal tick 5), the outcome that stores the names in the reversed
order `["b.dat", "a.dat"]` also satisfies the `tickfile` relation -- the
pandas `sort_index` default quicksort only guarantees an ascending
permutation -- so the claim that tied entries always keep their original
relative order is false. -/
theorem tickfile_stability_cex :
    ¬ ∀ (out : TickfileOutcome) (a : TickArtifact),
        tickfileRel [ta, tb] P1 outfn0 0 out → out = .written a →
        a.fn = ["a.dat", "b.dat"] := by
  intro h
  have hrel : tickfileRel [ta, tb] P1 outfn0 0
      (.written ⟨[5, 5], ["b.dat", "a.dat"], "d1"⟩) :=
    ⟨[(5, "b.dat"), (5, "a.dat")], ⟨by decide, by decide⟩, rfl⟩
  have := h _ _ hrel rfl
  exact absurd this (by decide)

/-- Claim C5 (corrected): every `tickfile` outcome on a non-empty input
list with a successful tick scan is a written artifact whose tick column
is sorted ascending and whose (tick, name) rows are a permutation of the
scanned (tick, name) pairs; the relative order of entries with equal
ticks is unspecified, because the pandas `sort_index` default
(`kind='quicksort'`) is not a stable sort. -/
theorem tickfile_sorted_perm (flist : List SpoolFile) (f0 : SpoolFile)
    (rest : List SpoolFile) (P : GeometryParams) (outfn : OutTarget) (zerocol : Nat)
    (out : TickfileOutcome) (ticks : List Int)
    (hfl : flist = f0 :: rest)
    (hticks : tickfileTicks P zerocol flist = .ok ticks)
    (hdirn : outfn.is_dir = false)
    (hconf : tickfileConflict outfn = false)
    (hrel : tickfileRel flist P outfn zerocol out) :
    ∃ a, out = .written a ∧ a.index.Sorted (· ≤ ·) ∧
      (a.index.zip a.fn).Perm (ticks.zip (flist.map (fun g => g.path.name))) := by
  unfold tickfileRel at hrel
  rw [if_neg (by simp [hdirn]), if_neg (by simp [hconf]), hticks] at hrel
  subst hfl
  obtain ⟨sorted, ⟨hperm, hsorted⟩, hout⟩ := hrel
  refine ⟨_, hout, hsorted, ?_⟩
  have hz : ((sorted.map Prod.fst).zip (sorted.map Prod.snd)) = sorted := by
    have h1 := zip_map_fst_snd_map (fun s : String => s) sorted
    simpa using h1
  show ((sorted.map Prod.fst).zip (sorted.map Prod.snd)).Perm _
  rw [hz]
  exact hperm

/-- Claim C5 witness: the corrected statement applied at the tied input
`[ta, tb]` with the order-preserving outcome. -/
theorem tickfile_sorted_perm_witness :
    ∃ a, TickfileOutcome.written ⟨[5, 5], ["a.dat", "b.dat"], "d1"⟩ = .written a ∧
      a.index.Sorted (· ≤ ·) ∧
      (a.index.zip a.fn).Perm
        (([5, 5] : List Int).zip ([ta, tb].map (fun g => g.path.name))) :=
  tickfile_sorted_perm [ta, tb] ta [tb] P1 outfn0 0 _ [5, 5] rfl rfl rfl rfl
    ⟨[(5, "a.dat"), (5, "b.dat")], ⟨by decide, by decide⟩, rfl⟩

/-- Claim C1 counterexample: for the two-file input `[fa, fb2]` with
distinct ticks but different parent directories (`d1` and `d2`), no
outcome of `tickfile` reconstructs the original absolute paths: the
artifact stores only `fa`'s parent `d1`, so `spoolpath` rebuilds
`d1/b.dat` in place of `d2/b.dat`. -/
theorem tickfile_roundtrip_cex :
    ¬ ∀ out : TickfileOutcome, tickfileRel [fa, fb2] P1 outfn0 0 out →
        ∃ a, out = .written a ∧
          (spoolpathH5 a).Perm ([fa, fb2].map (fun g => g.path)) := by
  intro h
  have hrel : tickfileRel [fa, fb2] P1 outfn0 0
      (.written ⟨[1, 2], ["a.dat", "b.dat"], "d1"⟩) :=
    ⟨[(1, "a.dat"), (2, "b.dat")], ⟨by decide, by decide⟩, rfl⟩
  obtain ⟨a, ha, hperm⟩ := h _ hrel
  injection ha with ha
  subst ha
  exact absurd hperm (by decide)

/-- Claim C1 (corrected): the round-trip law holds under the added
precondition that every input file lies in the first file's parent
directory.  For a non-empty input list with distinct (int64-cast) ticks
whose files all share the first file's parent, every `tickfile` outcome
is a written artifact whose tick column is sorted strictly ascending, and
`spoolpath` on that artifact reconstructs exactly the original N absolute
paths in that tick-ascending order (stated as: the reconstructed paths,
paired with the sorted ticks, enumerate exactly the scanned (tick, path)
pairs). -/
theorem tickfile_roundtrip (flist : List SpoolFile) (f0 : SpoolFile)
    (rest : List SpoolFile) (P : GeometryParams) (outfn : OutTarget) (zerocol : Nat)
    (out : TickfileOutcome) (ticks : List Int)
    (hfl : flist = f0 :: rest)
    (hdir : ∀ g ∈ flist, g.path.parent = f0.path.parent)
    (hticks : tickfileTicks P zerocol flist = .ok ticks)
    (hnodup : ticks.Nodup)
    (hdirn : outfn.is_dir = false)
    (hconf : tickfileConflict outfn = false)
    (hrel : tickfileRel flist P outfn zerocol out) :
    ∃ a, out = .written a ∧ a.index.Sorted (· < ·) ∧
      (a.index.zip (spoolpathH5 a)).Perm (ticks.zip (flist.map (fun g => g.path))) := by
  have hlen : ticks.length = flist.length :=
    tickfileTicks_length P zerocol flist ticks hticks
  unfold tickfileRel at hrel
  rw [if_neg (by simp [hdirn]), if_neg (by simp [hconf]), hticks] at hrel
  subst hfl
  obtain ⟨sorted, ⟨hperm, hsorted⟩, hout⟩ := hrel
  have hlen2 : ticks.length ≤ ((f0 :: rest).map (fun g => g.path.name)).length := by
    simp [hlen]
  have hfst : (ticks.zip ((f0 :: rest).map (fun g => g.path.name))).map Prod.fst = ticks :=
    List.map_fst_zip ticks _ hlen2
  have hpfst : (sorted.map Prod.fst).Perm ticks := by
    have h1 := hperm.map Prod.fst
    rwa [hfst] at h1
  have hnodup2 : (sorted.map Prod.fst).Nodup := hpfst.nodup_iff.mpr hnodup
  refine ⟨_, hout, hsorted.lt_of_le hnodup2, ?_⟩
  show ((sorted.map Prod.fst).zip
    ((sorted.map Prod.snd).map (fun n => DatPath.mk f0.path.parent n))).Perm _
  rw [zip_map_fst_snd_map (fun n => DatPath.mk f0.path.parent n) sorted]
  have h2 := hperm.map (fun p : Int × String => (p.1, DatPath.mk f0.path.parent p.2))
  rw [map_pair_zip (fun n => DatPath.mk f0.path.parent n) ticks] at h2
  have h3 : ((f0 :: rest).map (fun g => g.path.name)).map
      (fun n => DatPath.mk f0.path.parent n) = (f0 :: rest).map (fun g => g.path) := by
    rw [List.map_map]
    exact List.map_congr_left (fun g hg => by
      simp only [Function.comp_apply]
      rw [← hdir g hg])
  rwa [h3] at h2

/-- Claim C1 witness: the corrected statement applied at the shared-parent
input `[fa, fbS]` (ticks 1 and 2, both in `d1`). -/
theorem tickfile_roundtrip_witness :
    ∃ a, TickfileOutcome.written ⟨[1, 2], ["a.dat", "b.dat"], "d1"⟩ = .written a ∧
      a.index.Sorted (· < ·) ∧
      (a.index.zip (spoolpathH5 a)).Perm
        (([1, 2] : List Int).zip ([fa, fbS].map (fun g => g.path))) :=
  tickfile_roundtrip [fa, fbS] fa [fbS] P1 outfn0 0 _ [1, 2] rfl (by decide) rfl
    (by decide) rfl rfl
    ⟨[(1, "a.dat"), (2, "b.dat")], ⟨by decide, by decide⟩, rfl⟩

/-- Claim C10: the artifact stores only the FIRST input file's parent
directory as `path` (source line 270), `spoolpath` joins every stored name
against that single directory (source lines 85-90), and therefore the
reconstructed paths coincide with the original files exactly under the
unstated precondition that every input file shares the first file's
parent: with a shared parent the reconstruction is a permutation of the
originals, while any file with a different parent makes the reconstruction
differ from the originals. -/
theorem tickfile_parent_dir_only (flist : List SpoolFile) (f0 : SpoolFile)
    (rest : List SpoolFile) (P : GeometryParams) (outfn : OutTarget) (zerocol : Nat)
    (a : TickArtifact)
    (hfl : flist = f0 :: rest)
    (hrel : tickfileRel flist P outfn zerocol (.written a)) :
    a.path = f0.path.parent ∧
    spoolpathH5 a = a.fn.map (fun n => ⟨a.path, n⟩) ∧
    ((∀ g ∈ flist, g.path.parent = f0.path.parent) →
      (spoolpathH5 a).Perm (flist.map (fun g => g.path))) ∧
    (∀ g ∈ flist, g.path.parent ≠ f0.path.parent →
      ¬ (spoolpathH5 a).Perm (flist.map (fun g => g.path))) := by
  unfold tickfileRel at hrel
  split at hrel
  next => exact absurd hrel (by simp)
  next =>
  split at hrel
  next => exact absurd hrel (by simp)
  next =>
  split at hrel
  next e heq => exact absurd hrel (by simp)
  next ticks heq =>
  subst hfl
  obtain ⟨sorted, ⟨hperm, hsorted⟩, hout⟩ := hrel
  injection hout with hout
  subst hout
  have hlen : ticks.length = (f0 :: rest).length :=
    tickfileTicks_length P zerocol (f0 :: rest) ticks heq
  have hlen2 : ((f0 :: rest).map (fun g => g.path.name)).length ≤ ticks.length := by
    simp [hlen]
  have hsnd : (ticks.zip ((f0 :: rest).map (fun g => g.path.name))).map Prod.snd =
      (f0 :: rest).map (fun g => g.path.name) :=
    List.map_snd_zip ticks _ hlen2
  refine ⟨rfl, rfl, ?_, ?_⟩
  · intro hdir
    have hpsnd : (sorted.map Prod.snd).Perm ((f0 :: rest).map (fun g => g.path.name)) := by
      have h1 := hperm.map Prod.snd
      rwa [hsnd] at h1
    have h2 := hpsnd.map (fun n => DatPath.mk f0.path.parent n)
    have h3 : ((f0 :: rest).map (fun g => g.path.name)).map
        (fun n => DatPath.mk f0.path.parent n) = (f0 :: rest).map (fun g => g.path) := by
      rw [List.map_map]
      exact List.map_congr_left (fun g hg => by
      simp only [Function.comp_apply]
      rw [← hdir g hg])
    rwa [h3] at h2
  · intro g hg hgne hperm2
    have hmem : g.path ∈ (f0 :: rest).map (fun g => g.path) :=
      List.mem_map_of_mem _ hg
    have hmem2 : g.path ∈ spoolpathH5
        ⟨sorted.map Prod.fst, sorted.map Prod.snd, f0.path.parent⟩ :=
      hperm2.mem_iff.mpr hmem
    obtain ⟨n, hn, hpath⟩ := List.mem_map.mp hmem2
    exact hgne (by rw [← hpath])

/-- Claim C10 witness: the theorem applied at the mixed-parent input
`[fa, fb2]`, concluding that the written artifact's stored directory is
`fa`'s parent `d1`. -/
theorem tickfile_parent_dir_only_witness :
    (TickArtifact.mk [1, 2] ["a.dat", "b.dat"] "d1").path = ("d1" : String) :=
  (tickfile_parent_dir_only [fa, fb2] fa [fb2] P1 outfn0 0
    ⟨[1, 2], ["a.dat", "b.dat"], "d1"⟩ rfl
    ⟨[(1, "a.dat"), (2, "b.dat")], ⟨by decide, by decide⟩, rfl⟩).1
